import Mathlib

/- Verification of the sig-vault storage core: shallow embedding of the
   storage backend adapters (SMB and WebDAV), the async load orchestrator,
   and the cloud navigation controller, with theorems settling the spec's
   claims against the code. -/

namespace SigVault

/- ### String helpers (models of the Python string operations used by the source) -/

/-- Is a character one of the ASCII whitespace characters that Python's
`str.strip()` removes (restricted to the ASCII range used by this system). -/
def isPySpace (c : Char) : Bool :=
  c = ' ' || c = '\t' || c = '\n' || c = '\r' || c = '\x0b' || c = '\x0c'

/-- Drop characters satisfying `p` from both ends of a character list. -/
def stripList (p : Char → Bool) (s : List Char) : List Char :=
  (((s.dropWhile p).reverse).dropWhile p).reverse

/-- Model of Python `str.strip()` (whitespace at both ends). -/
def pyStrip (s : String) : String :=
  ⟨stripList isPySpace s.data⟩

/-- Model of Python `str.strip("/")`. -/
def pyStripSlash (s : String) : String :=
  ⟨stripList (fun c => c = '/') s.data⟩

/-- Model of Python `str.rstrip("/")` (trailing slashes only). -/
def pyRStripSlash (s : String) : String :=
  ⟨(s.data.reverse.dropWhile (fun c => c = '/')).reverse⟩

/-- ASCII lowercasing of one character (model of `str.lower` on the
ASCII data this system handles). -/
def lowerChar (c : Char) : Char :=
  if 'A' ≤ c ∧ c ≤ 'Z' then Char.ofNat (c.toNat + 32) else c

/-- Model of Python `str.lower()`. -/
def pyLower (s : String) : String :=
  ⟨s.data.map lowerChar⟩

/-- Does the first list occur as a prefix of the second. -/
def isPrefixList : List Char → List Char → Bool
  | [], _ => true
  | _ :: _, [] => false
  | a :: as, b :: bs => a = b && isPrefixList as bs

/-- Does `pat` occur as a contiguous sublist of `s`. -/
def containsSub (pat : List Char) : List Char → Bool
  | [] => isPrefixList pat []
  | c :: rest => isPrefixList pat (c :: rest) || containsSub pat rest

/-- Model of Python `pat in s` (substring containment). -/
def strContains (s pat : String) : Bool :=
  containsSub pat.data s.data

/-- Model of Python `s.startswith(pat)`. -/
def strStartsWith (s pat : String) : Bool :=
  isPrefixList pat.data s.data

/-- Model of Python `s.endswith(pat)`. -/
def strEndsWith (s pat : String) : Bool :=
  isPrefixList pat.data.reverse s.data.reverse

/-- ASCII decimal digit test. -/
def isDigitCh (c : Char) : Bool :=
  '0' ≤ c && c ≤ '9'

/-- The decimal digit character for `n < 10` (total, digit-valued). -/
def digitChar : Nat → Char
  | 0 => '0'
  | 1 => '1'
  | 2 => '2'
  | 3 => '3'
  | 4 => '4'
  | 5 => '5'
  | 6 => '6'
  | 7 => '7'
  | 8 => '8'
  | 9 => '9'
  | _ => '0'

/-- Fuel-driven decimal printing accumulator. -/
def natToDecAux : Nat → Nat → List Char → List Char
  | 0, _, acc => acc
  | fuel + 1, n, acc =>
    if n < 10 then digitChar n :: acc
    else natToDecAux fuel (n / 10) (digitChar (n % 10) :: acc)

/-- Model of Python `str(n)` for a non-negative integer. -/
def natToDec (n : Nat) : String :=
  ⟨natToDecAux (n + 1) n []⟩

/-- Model of Python `str(n)` for an arbitrary integer. -/
def intToDec (n : Int) : String :=
  if n < 0 then "-" ++ natToDec n.natAbs else natToDec n.toNat

/-- Numeric value of the digit list `ds` (most significant first). -/
def digitsToNat (s : String) : Nat :=
  s.data.foldl (fun a c => a * 10 + (c.toNat - 48)) 0

/-- Model of Python `s.isdigit()` (ASCII digits). -/
def pyIsDigit (s : String) : Bool :=
  s.data ≠ [] && s.data.all isDigitCh

/-- Model of Python `int(s)` on a string: optional sign then digits, with
surrounding whitespace allowed; `none` models the `ValueError` path. -/
def pyIntParse (s : String) : Option Int :=
  let t := (pyStrip s).data
  match t with
  | '-' :: rest =>
    if rest ≠ [] ∧ rest.all isDigitCh then some (-(digitsToNat ⟨rest⟩ : Int)) else none
  | '+' :: rest =>
    if rest ≠ [] ∧ rest.all isDigitCh then some ((digitsToNat ⟨rest⟩ : Int)) else none
  | _ =>
    if t ≠ [] ∧ t.all isDigitCh then some ((digitsToNat ⟨t⟩ : Int)) else none

/- ### Calendar arithmetic (model of Python `datetime` rendering; the
process-local timezone is modelled as UTC) -/

/-- Civil date from a count of days since the Unix epoch
(standard era-based conversion; all intermediate divisions act on
non-negative operands, so Lean's truncating `Int` division matches). -/
def civilFromDays (z0 : Int) : Int × Nat × Nat :=
  let z := z0 + 719468
  let era : Int := (if 0 ≤ z then z else z - 146096) / 146097
  let doe : Int := z - era * 146097
  let yoe : Int := (doe - doe / 1460 + doe / 36524 - doe / 146096) / 365
  let y : Int := yoe + era * 400
  let doy : Int := doe - (365 * yoe + yoe / 4 - yoe / 100)
  let mp : Int := (5 * doy + 2) / 153
  let d : Int := doy - (153 * mp + 2) / 5 + 1
  let m : Int := mp + (if mp < 10 then 3 else -9)
  (y + (if m ≤ 2 then 1 else 0), m.toNat, d.toNat)

/-- Days since the Unix epoch of a civil date. -/
def daysFromCivil (y0 : Int) (m d : Nat) : Int :=
  let y : Int := y0 - (if m ≤ 2 then 1 else 0)
  let era : Int := (if 0 ≤ y then y else y - 399) / 400
  let yoe : Int := y - era * 400
  let doy : Int := (153 * ((m : Int) + (if 2 < m then -3 else 9)) + 2) / 5 + (d : Int) - 1
  let doe : Int := yoe * 365 + yoe / 4 - yoe / 100 + doy
  era * 146097 + doe - 719468

/-- Two-digit zero-padded decimal. -/
def pad2 (n : Nat) : String :=
  if n < 10 then "0" ++ natToDec n else natToDec n

/-- Four-digit zero-padded decimal (model of `%Y` in the supported range). -/
def pad4 (n : Nat) : String :=
  if n < 10 then "000" ++ natToDec n
  else if n < 100 then "00" ++ natToDec n
  else if n < 1000 then "0" ++ natToDec n
  else natToDec n

/-- Model of `datetime.strftime("%Y-%m-%d %H:%M:%S")` applied to the datetime
holding Unix timestamp `ts` (timezone modelled as UTC). -/
def renderYmdHms (ts : Int) : String :=
  let days := ts.ediv 86400
  let sod := (ts.emod 86400).toNat
  let c := civilFromDays days
  pad4 c.1.toNat ++ "-" ++ pad2 c.2.1 ++ "-" ++ pad2 c.2.2 ++ " " ++
    pad2 (sod / 3600) ++ ":" ++ pad2 (sod % 3600 / 60) ++ ":" ++ pad2 (sod % 60)

/-- Model of `datetime.strftime("%Y-%m-%d %H:%M")` applied to the datetime
holding Unix timestamp `ts` (timezone modelled as UTC). -/
def renderYmdHm (ts : Int) : String :=
  let days := ts.ediv 86400
  let sod := (ts.emod 86400).toNat
  let c := civilFromDays days
  pad4 c.1.toNat ++ "-" ++ pad2 c.2.1 ++ "-" ++ pad2 c.2.2 ++ " " ++
    pad2 (sod / 3600) ++ ":" ++ pad2 (sod % 3600 / 60)

/-- Lowest Unix timestamp representable by `datetime` (0001-01-01 00:00:00). -/
def minDatetimeSec : Int := -62135596800

/-- Highest whole-second Unix timestamp representable by `datetime`
(9999-12-31 23:59:59). -/
def maxDatetimeSec : Int := 253402300799

/-- Does `datetime.fromtimestamp` accept the (possibly fractional)
timestamp `q` without raising (timezone modelled as UTC). -/
def fromtimestampValid (q : ℚ) : Bool :=
  (minDatetimeSec : ℚ) ≤ q && q < (maxDatetimeSec : ℚ) + 1

/- ### C5: FILETIME decoding (src/services/smb/client.py, list_files_in_directory) -/

/-- Share-timestamp decoding extracted from `list_files_in_directory`:
tick values above the magnitude threshold are converted from FILETIME
(100-ns units since 1601-01-01) to Unix seconds; smaller values are passed
through as already-Unix seconds. -/
def decodeShareTimestamp (t : Int) : ℚ :=
  if 10000000000000 < t then ((t : ℚ) - 116444736000000000) / 10000000
  else (t : ℚ)

/- ### C4: WebDAV error mapping (src/services/dav/client.py, _raise_mapped) -/

/-- The exception classes raised by `_raise_mapped`: the source defines
`WebDAVAuthError` (used for both 401 and 403), `WebDAVNotFoundError`,
and `WebDAVConnectionError`. -/
inductive DavError where
  | authError (msg : String)
  | notFoundError (msg : String)
  | connectionError (msg : String)
deriving DecidableEq

/-- The kind (exception class) of a raised DAV error. -/
def DavError.kind : DavError → Nat
  | .authError _ => 0
  | .notFoundError _ => 1
  | .connectionError _ => 2

/-- Model of `OwnCloudWebDAVClient._raise_mapped`: inspects the raw error
text case-insensitively and raises one of the three typed errors. -/
def raiseMapped (action msg : String) : DavError :=
  let lower := pyLower msg
  if [" 401", "code 401", "notauthenticated", "unauthorized"].any
      (fun c => strContains lower c) then
    .authError ("Authentication failed (401) while trying to " ++ action ++
      ". Please verify your username, password, and server URL.")
  else if [" 403", "code 403", "forbidden"].any (fun c => strContains lower c) then
    .authError ("Access forbidden (403) while trying to " ++ action ++
      ". Check your permissions.")
  else if [" 404", "code 404", "not found"].any (fun c => strContains lower c) then
    .notFoundError ("Resource not found (404) while trying to " ++ action ++ ".")
  else
    .connectionError ("WebDAV error during " ++ action ++ ": " ++ msg)

/-- Modelled from the spec's words, for comparison with `raiseMapped` (the
amended claim): the error-kind classification the code implements, stated
over the matched substrings in the lowercased message. Both the 401 group
and the 403 group map to the same `WebDAVAuthError` kind. -/
def davErrorKindSpec (msg : String) : Nat :=
  let lower := pyLower msg
  if [" 401", "code 401", "notauthenticated", "unauthorized"].any
      (fun c => strContains lower c) then 0
  else if [" 403", "code 403", "forbidden"].any (fun c => strContains lower c) then 0
  else if [" 404", "code 404", "not found"].any (fun c => strContains lower c) then 1
  else 2

/- ### SMB share backend (src/services/smb/client.py) -/

/-- One raw `FILE_DIRECTORY_INFORMATION` record as consumed by
`list_files_in_directory`. `fileName = none` models a record whose wide-
character name fails strict UTF-16 decoding; absent fields are `none`. -/
structure SmbRawEntry where
  fileName : Option String
  endOfFile : Option Nat
  fileAttributes : Option Nat
  lastWriteTime : Option Int
  changeTime : Option Int
  creationTime : Option Int
deriving DecidableEq

/-- Should the decoded name be filtered out: the self/parent pseudo-entries,
a stray byte-order mark, a name that strips to empty, or a name holding a
control character. -/
def smbNameFiltered (name : String) : Bool :=
  name = "." || name = ".." || name = "\uFEFF" || pyStrip name = "" ||
    name.data.any (fun c => c.toNat < 32)

/-- The best-effort conversion of the modified field to a display string in
`list_files_in_directory`: large values are decoded as FILETIME ticks, small
ones passed through as Unix seconds (see `decodeShareTimestamp`); a value
`datetime.fromtimestamp` rejects yields `none`. -/
def smbModString (modifiedVal : Option Int) : Option String :=
  match modifiedVal with
  | none => none
  | some val =>
    let q := decodeShareTimestamp val
    if fromtimestampValid q then some (renderYmdHms (Rat.floor q)) else none

/-- A Python value as stored in the entry dictionaries at the storage
boundary. -/
inductive PyVal where
  | vnone
  | vstr (s : String)
  | vint (n : Int)
  | vrat (q : ℚ)
  | vbool (b : Bool)
deriving DecidableEq

/-- The size extraction of `list_files_in_directory`: the `end_of_file`
field when present, else 0. -/
def smbSizeVal (e : SmbRawEntry) : Nat :=
  e.endOfFile.getD 0

/-- The directory-attribute extraction: bit 0x10 of `file_attributes`,
defaulting to a plain file when the field is absent. -/
def smbIsDir (e : SmbRawEntry) : Bool :=
  match e.fileAttributes with
  | some attrs => decide (attrs.land 0x10 ≠ 0)
  | none => false

/-- The modified-field extraction: prefer `last_write_time`, then
`change_time`, then `creation_time`. -/
def smbModifiedVal (e : SmbRawEntry) : Option Int :=
  e.lastWriteTime <|> e.changeTime <|> e.creationTime

/-- Processing of one raw record by `list_files_in_directory`: decode the
name (skipping undecodable or filtered names), extract size, the directory
attribute bit, and the first available time field, and build the entry
dictionary; `none` means the record is skipped. -/
def smbEntryRow (e : SmbRawEntry) : Option (List (String × PyVal)) :=
  match e.fileName with
  | none => none
  | some name =>
    if smbNameFiltered name then none
    else
      some [("name", PyVal.vstr name), ("path", PyVal.vstr name),
            ("size", PyVal.vstr (natToDec (smbSizeVal e))),
            ("is_dir", PyVal.vstr (if smbIsDir e then "true" else "false")),
            ("modified", PyVal.vstr ((smbModString (smbModifiedVal e)).getD ""))]

/-- Model of `list_files_in_directory`: every record is processed
independently; a skipped record never aborts the rest of the listing. -/
def listFilesInDirectory (entries : List SmbRawEntry) : List (List (String × PyVal)) :=
  entries.filterMap smbEntryRow

/-- The value of the "name" key of an entry row. -/
def rowName (row : List (String × PyVal)) : String :=
  match row.lookup "name" with
  | some (PyVal.vstr s) => s
  | _ => ""

/-- Outcome of one offset-based chunk read against the share
(`Open.read`): a data payload, or a raised `SMBResponseException`
carrying the status text. -/
inductive ReadResult where
  | data (s : String)
  | exc (msg : String)
deriving DecidableEq

/-- The end-of-file status test in `download_file`: the status text names
STATUS_END_OF_FILE, or its code 0xc0000011 appears case-insensitively. -/
def isEofStatus (msg : String) : Bool :=
  strContains msg "STATUS_END_OF_FILE" || strContains (pyLower msg) "0xc0000011"

/-- Outcome of a download: the complete reconstructed file, or an aborted
transfer surfacing the error with the partial artifact left on disk. -/
inductive DownloadOutcome where
  | complete (content : String)
  | failed (err : String) (partialContent : String)
deriving DecidableEq

/-- The chunked read loop of `download_file`, reading at explicit offsets:
an EOF-signalling error or an empty chunk ends the transfer normally, any
other error aborts it, and each data chunk advances the offset by the bytes
received. `read` is the server's response at each offset; `none` models a
loop that exceeds the given fuel (the source loop has no other bound). -/
def downloadFromReads (read : Nat → ReadResult) :
    Nat → Nat → List Char → Option DownloadOutcome
  | 0, _, _ => none
  | fuel + 1, offset, acc =>
    match read offset with
    | .exc msg =>
      if isEofStatus msg then some (.complete ⟨acc⟩) else some (.failed msg ⟨acc⟩)
    | .data s =>
      if s.data = [] then some (.complete ⟨acc⟩)
      else downloadFromReads read fuel (offset + s.data.length) (acc ++ s.data)

/-- Model of `download_file` restricted to its read/write loop. -/
def downloadFile (read : Nat → ReadResult) (fuel : Nat) : Option DownloadOutcome :=
  downloadFromReads read fuel 0 []

/- ### Concrete SMB fixtures -/

/-- A plain file record. -/
def smbFileRecord (name : String) (size : Nat) : SmbRawEntry :=
  { fileName := some name, endOfFile := some size, fileAttributes := some 0x20,
    lastWriteTime := none, changeTime := none, creationTime := none }

/-- A directory record. -/
def smbDirRecord (name : String) : SmbRawEntry :=
  { fileName := some name, endOfFile := some 0, fileAttributes := some 0x10,
    lastWriteTime := none, changeTime := none, creationTime := none }

/-- A record whose name bytes fail strict UTF-16 decoding. -/
def smbUndecodableRecord : SmbRawEntry :=
  { fileName := none, endOfFile := some 7, fileAttributes := some 0x20,
    lastWriteTime := none, changeTime := none, creationTime := none }

/-- A record whose decoded name is a stray byte-order mark. -/
def smbBomRecord : SmbRawEntry :=
  { fileName := some "\uFEFF", endOfFile := some 3, fileAttributes := some 0x20,
    lastWriteTime := none, changeTime := none, creationTime := none }

/-- A record whose decoded name strips to the empty string. -/
def smbBlankRecord : SmbRawEntry :=
  { fileName := some "   ", endOfFile := some 3, fileAttributes := some 0x20,
    lastWriteTime := none, changeTime := none, creationTime := none }

/-- A record whose decoded name holds a control character. -/
def smbControlRecord : SmbRawEntry :=
  { fileName := some "bad\x01name", endOfFile := some 3, fileAttributes := some 0x20,
    lastWriteTime := none, changeTime := none, creationTime := none }

/-- The raw directory records of the C6 scenario. -/
def c6Records : List SmbRawEntry :=
  [smbDirRecord ".", smbDirRecord "..", smbFileRecord "file1.txt" 12,
   smbDirRecord "subdir", smbFileRecord "unicodé.txt" 5, smbUndecodableRecord]

/- ### Theorems for C4 -/

/-- C4 counterexample: the claimed mapping is false on the code. The text
"x401x" contains "401" yet maps to the connectivity kind, and a 403
"forbidden" failure raises the very same exception class (`WebDAVAuthError`)
as a 401 failure — the code has no authorization kind distinct from the
authentication kind. -/
theorem raiseMapped_claim_counterexample :
    (raiseMapped "list directory" "x401x").kind = 2
    ∧ (raiseMapped "list directory" "HTTP 403 Forbidden").kind
        = (raiseMapped "list directory" "HTTP 401 Unauthorized").kind := by
  decide

/-- C4 amended: on any failure text, `_raise_mapped` classifies the message
case-insensitively by the substrings " 401"/"code 401"/"notauthenticated"/
"unauthorized" (→ `WebDAVAuthError`), " 403"/"code 403"/"forbidden"
(→ `WebDAVAuthError` again, the same class), " 404"/"code 404"/"not found"
(→ `WebDAVNotFoundError`), anything else → `WebDAVConnectionError`. -/
theorem raiseMapped_kind_amended (action msg : String) :
    (raiseMapped action msg).kind = davErrorKindSpec msg := by
  simp only [raiseMapped, davErrorKindSpec]
  split_ifs
  all_goals rfl

/- ### Theorems for C5 -/

/-- C5 counterexample: the decode is not monotonic across the magnitude
threshold — 10^13 decodes to 10^13 (passed through as Unix seconds), while
10^13 + 1 decodes to a negative number of Unix seconds. -/
theorem decodeShareTimestamp_not_monotone :
    (10000000000000 : Int) ≤ 10000000000001
    ∧ decodeShareTimestamp 10000000000001 < decodeShareTimestamp 10000000000000 := by
  constructor
  · decide
  · unfold decodeShareTimestamp
    norm_num

/-- C5 amended: the decode is monotonic on each side of the magnitude
threshold — for `t1 ≤ t2` that do not straddle 10^13, the decoded timestamp
of `t1` is at most that of `t2`. -/
theorem decodeShareTimestamp_monotone_on_branches (t1 t2 : Int) (h : t1 ≤ t2)
    (hb : t2 ≤ 10000000000000 ∨ 10000000000000 < t1) :
    decodeShareTimestamp t1 ≤ decodeShareTimestamp t2 := by
  unfold decodeShareTimestamp
  rcases hb with hb | hb
  · rw [if_neg (by omega), if_neg (by omega)]
    exact_mod_cast h
  · rw [if_pos (by omega), if_pos (by omega)]
    have hc : (t1 : ℚ) ≤ (t2 : ℚ) := by exact_mod_cast h
    gcongr

/-- Witness for the amended C5 theorem at concrete ticks. -/
theorem decodeShareTimestamp_monotone_witness :
    decodeShareTimestamp 0 ≤ decodeShareTimestamp 3600 :=
  decodeShareTimestamp_monotone_on_branches 0 3600 (by decide) (Or.inl (by decide))

/- ### Theorems for C6 -/

/-- C6: listing the raw records ".", "..", "file1.txt", "subdir",
"unicodé.txt" and an undecodable record yields exactly the three real
entries, in order; and a record that is undecodable, a stray byte-order
mark, blank, or control-character-ridden is skipped without aborting the
rest of the listing, wherever it occurs. -/
theorem listFiles_skips_bad_records :
    (listFilesInDirectory c6Records).map rowName = ["file1.txt", "subdir", "unicodé.txt"]
    ∧ (∀ pre post : List SmbRawEntry,
        listFilesInDirectory (pre ++ smbUndecodableRecord :: post)
          = listFilesInDirectory (pre ++ post))
    ∧ (∀ pre post : List SmbRawEntry,
        listFilesInDirectory (pre ++ smbBomRecord :: post)
          = listFilesInDirectory (pre ++ post))
    ∧ (∀ pre post : List SmbRawEntry,
        listFilesInDirectory (pre ++ smbBlankRecord :: post)
          = listFilesInDirectory (pre ++ post))
    ∧ (∀ pre post : List SmbRawEntry,
        listFilesInDirectory (pre ++ smbControlRecord :: post)
          = listFilesInDirectory (pre ++ post)) := by
  refine ⟨by decide, ?_, ?_, ?_, ?_⟩
  all_goals
    intro pre post
    simp [listFilesInDirectory, List.filterMap_append, List.filterMap_cons]
    rfl

/- ### WebDAV cloud backend (src/services/dav/client.py, OwnCloudWebDAVClient.list) -/

/-- Python truthiness of a stored value (drives the `or` chain picking the
modified field). -/
def pyTruthy : PyVal → Bool
  | .vnone => false
  | .vstr s => s ≠ ""
  | .vint n => n ≠ 0
  | .vrat q => q ≠ 0
  | .vbool b => b

/-- Model of a Python `a or b or ...` chain over optional dictionary values:
the first truthy value wins; with no truthy value the chain evaluates to its
last operand. -/
def pyOrChain : List (Option PyVal) → Option PyVal
  | [] => none
  | [v] => v
  | none :: rest => pyOrChain rest
  | some pv :: rest => if pyTruthy pv then some pv else pyOrChain rest

/-- Model of `_ensure_dir`: normalize a collection path to end with "/". -/
def ensureDir (path : String) : String :=
  if path = "" || strEndsWith path "/" then path else path ++ "/"

/-- One entry of the cloud listing after the cheap base pass. -/
structure DavListEntry where
  name : String
  remotePath : String
  isDir : Bool
  size : Option Int
  modified : Option PyVal
deriving DecidableEq

/-- The cheap base pass of `OwnCloudWebDAVClient.list`: skip the empty name
and the listed directory itself, derive the full path and the trailing-slash
directory flag, and build a bare entry with size/modified unset. -/
def davClientListBase (remoteDir : String) (wireNames : List String) :
    List DavListEntry :=
  let rd := ensureDir remoteDir
  wireNames.filterMap (fun name =>
    if name = "" || name = pyStripSlash rd then none
    else
      let full := if strStartsWith name rd then name else rd ++ name
      some { name := pyRStripSlash name,
             remotePath := full, isDir := strEndsWith full "/",
             size := none, modified := none })

/-- Metadata enrichment of one entry from its `info()` result: a failed
fetch (`none`) leaves the entry untouched; otherwise size is parsed for
non-directories and the modified value is the first truthy of the
provider-specific field names. -/
def enrichEntry (includeDirs : Bool)
    (info : String → Option (List (String × PyVal))) (e : DavListEntry) :
    DavListEntry :=
  if includeDirs || !e.isDir then
    match info e.remotePath with
    | none => e
    | some d =>
      let sizeVal : Option Int :=
        if e.isDir then none
        else
          match d.lookup "size" with
          | some (PyVal.vint n) => some n
          | some (PyVal.vstr s) => pyIntParse s
          | _ => none
      let modified := pyOrChain
        [d.lookup "modified", d.lookup "last_modified", d.lookup "mtime",
         d.lookup "updated_at", d.lookup "date"]
      { e with size := if e.isDir then e.size else sizeVal, modified := modified }
  else e

/-- Model of `OwnCloudWebDAVClient.list`: the base pass followed by the
per-entry metadata enrichment. The source fetches metadata on a bounded
worker pool and writes each result back into its entry's slot by path key,
so the final order matches the base listing order; the sequential map below
is that same per-slot write-back. -/
def davClientList (remoteDir : String) (wireNames : List String)
    (includeDirs : Bool) (info : String → Option (List (String × PyVal))) :
    List DavListEntry :=
  (davClientListBase remoteDir wireNames).map (enrichEntry includeDirs info)

/- ### Storage interface boundary (src/services/storage_interface.py) -/

/-- Model of Python `str(v)` on a stored value. -/
def pyValStr : PyVal → String
  | .vnone => "None"
  | .vstr s => s
  | .vint n => intToDec n
  | .vrat _ => "float"
  | .vbool b => if b then "True" else "False"

/-- The four always-present stringly-typed fields `DAVBackend.list_files`
produces for one entry: name and path from the client name, size via
`str(size if size is not None else 0)`, is_dir as "true"/"false". -/
def davRowBase (e : DavListEntry) : List (String × PyVal) :=
  [("name", PyVal.vstr e.name), ("path", PyVal.vstr e.name),
   ("size", PyVal.vstr (intToDec (e.size.getD 0))),
   ("is_dir", PyVal.vstr (if e.isDir then "true" else "false"))]

/-- Model of `DAVBackend.list_files` (storage_interface.py): re-shapes each
cloud client entry into the stringly-typed boundary dictionary, keeping a
numeric modified value raw and stringifying any other present one. -/
def davBackendListFiles (entries : List DavListEntry) :
    List (List (String × PyVal)) :=
  entries.map (fun e =>
    match e.modified with
    | none => davRowBase e
    | some (PyVal.vint n) => davRowBase e ++ [("modified", PyVal.vint n)]
    | some (PyVal.vrat q) => davRowBase e ++ [("modified", PyVal.vrat q)]
    | some m => davRowBase e ++ [("modified", PyVal.vstr (pyValStr m))])

/- ### Async load orchestrator (file_tree_viewer.py, FileExplorer) -/

/-- The session descriptor read by `load_files_async`; a key absent from
the Python dict is modelled as the empty string (both are falsy). -/
structure SessionInfo where
  storage : String
  username : String
  password : String
  server : String
  share : String
deriving DecidableEq

/-- The storage mode after the `(s.get("storage") or "local").strip().lower()`
dance. -/
def effectiveStorage (s : SessionInfo) : String :=
  pyLower (pyStrip (if s.storage = "" then "local" else s.storage))

/-- The UI-facing state of a `FileExplorer` that the claims observe: the
displayed listing rows, the status label, the single-flight flag, whether a
load ever succeeded, and how many background connect+list operations have
been started. -/
structure ExplorerState where
  session : SessionInfo
  loading : Bool
  everLoadedOk : Bool
  tree : List String
  status : String
  networkStarts : Nat
deriving DecidableEq

/-- Does the descriptor pass the pre-flight credential check of
`load_files_async` (non-empty stripped username/password, and for non-cloud
storage truthy server and share). -/
def credentialsOk (s : SessionInfo) : Bool :=
  !(pyStrip s.username = "" || pyStrip s.password = "") &&
    !(effectiveStorage s ≠ "cloud" && (s.server = "" || s.share = ""))

/-- The "Not connected" short-circuit: clears the tree and shows the status
only when no load has ever succeeded. -/
def notConnectedShortCircuit (st : ExplorerState) : ExplorerState :=
  if st.everLoadedOk then st
  else { st with tree := [], status := "Not connected" }

/-- Model of `FileExplorer.load_files_async`: the pre-flight credential
checks short-circuit without touching the network; while a load is in
flight the call returns `true` without starting a second operation;
otherwise it transitions to loading and starts one background connect+list
(counted by `networkStarts`). -/
def loadFilesAsync (st : ExplorerState) : Bool × ExplorerState :=
  if pyStrip st.session.username = "" || pyStrip st.session.password = "" then
    (false, notConnectedShortCircuit st)
  else if effectiveStorage st.session ≠ "cloud"
      && (st.session.server = "" || st.session.share = "") then
    (false, notConnectedShortCircuit st)
  else if st.loading then
    (true, st)
  else
    (true, { st with loading := true, status := "Loading…",
                     networkStarts := st.networkStarts + 1 })

/-- Model of `FileExplorer._handle_load_error`: shows the error dialog,
then unconditionally clears the listing and reports failure in the status
label. -/
def handleLoadError (st : ExplorerState) (_msg : String) : ExplorerState :=
  { st with tree := [], status := "Failed to load files" }

/-- Model of `FileExplorer._on_load_error`: the error handler followed by
`_show_loading(False)`. -/
def onLoadError (st : ExplorerState) (msg : String) : ExplorerState :=
  let st1 := handleLoadError st msg
  { st1 with loading := false }

/- ### Navigation controller (vault/components/file_tree_viewer.py) -/

/-- The cloud navigation state: the linear history, the cursor into it, and
the currently displayed path. -/
structure NavState where
  history : List String
  idx : Int
  current : String
deriving DecidableEq

/-- Model of `_normalize_cloud_path`: strip whitespace, replace backslashes
with forward slashes, strip leading/trailing slashes. -/
def normalizeCloudPath (p : String) : String :=
  ⟨stripList (fun c => c = '/')
    ((pyStrip p).data.map (fun c => if c = '\\' then '/' else c))⟩

/-- The history commit performed by `_on_nav_load_finished` after a
successful load of target `t` with the given mode: `push` truncates forward
history, appends `t` and moves the cursor to the last index; `back` and
`forward` move the cursor; `reload` leaves history untouched. -/
def navCommit (st : NavState) (t : String) (mode : String) : NavState :=
  let st1 : NavState := { st with current := t }
  if mode = "push" then
    let h :=
      if 0 ≤ st1.idx ∧ st1.idx < (st1.history.length : Int) - 1 then
        st1.history.take (st1.idx + 1).toNat
      else st1.history
    let h2 := h ++ [t]
    { st1 with history := h2, idx := (h2.length : Int) - 1 }
  else if mode = "back" then
    { st1 with idx := max 0 (st1.idx - 1) }
  else if mode = "forward" then
    { st1 with idx := min ((st1.history.length : Int) - 1) (st1.idx + 1) }
  else st1

/-- A `push(path)` whose load succeeds: `_navigate_to(path, "push")` is a
no-op when the normalized target equals the current path, and otherwise
commits the navigation on load completion. -/
def navPush (st : NavState) (path : String) : NavState :=
  let t := normalizeCloudPath path
  if t = st.current then st else navCommit st t "push"

/-- Model of `can_go_back`. -/
def canGoBack (st : NavState) : Bool :=
  0 < st.idx

/-- Model of `can_go_forward`. -/
def canGoForward (st : NavState) : Bool :=
  0 ≤ st.idx && st.idx < (st.history.length : Int) - 1

/-- A `go_back()` whose load succeeds: a no-op unless `can_go_back`;
otherwise loads `history[cursor-1]` and commits with mode `back`. -/
def navBack (st : NavState) : NavState :=
  if canGoBack st then
    let target := st.history.getD (st.idx - 1).toNat ""
    navCommit st target "back"
  else st

/- ### Modified-timestamp normalizer (file_tree_viewer.py, _format_modified) -/

/-- Parse two decimal digits. -/
def parse2 : List Char → Option (Nat × List Char)
  | a :: b :: rest =>
    if isDigitCh a && isDigitCh b then
      some ((a.toNat - 48) * 10 + (b.toNat - 48), rest)
    else none
  | _ => none

/-- Parse four decimal digits. -/
def parse4 : List Char → Option (Nat × List Char)
  | a :: b :: c :: d :: rest =>
    if isDigitCh a && isDigitCh b && isDigitCh c && isDigitCh d then
      some ((((a.toNat - 48) * 10 + (b.toNat - 48)) * 10 + (c.toNat - 48)) * 10
        + (d.toNat - 48), rest)
    else none
  | _ => none

/-- Gregorian leap-year test. -/
def isLeapYear (y : Int) : Bool :=
  (y % 4 = 0 && y % 100 ≠ 0) || y % 400 = 0

/-- Days in a month of a given year. -/
def daysInMonth (y : Int) (m : Nat) : Nat :=
  if m = 2 then (if isLeapYear y then 29 else 28)
  else if m = 4 || m = 6 || m = 9 || m = 11 then 30 else 31

/-- Parse a "±HH:MM" zone offset (seconds east of UTC). -/
def parseOffset : List Char → Option (Int × List Char)
  | '+' :: rest =>
    match parse2 rest with
    | some (oh, ':' :: r2) =>
      match parse2 r2 with
      | some (om, r3) =>
        if oh ≤ 23 && om ≤ 59 then some (((oh : Int) * 3600 + (om : Int) * 60, r3))
        else none
      | none => none
    | _ => none
  | '-' :: rest =>
    match parse2 rest with
    | some (oh, ':' :: r2) =>
      match parse2 r2 with
      | some (om, r3) =>
        if oh ≤ 23 && om ≤ 59 then some ((-((oh : Int) * 3600 + (om : Int) * 60), r3))
        else none
      | none => none
    | _ => none
  | _ => none

/-- Parse "HH:MM" or "HH:MM:SS". -/
def parseTime (cs : List Char) : Option (Nat × Nat × Nat × List Char) :=
  match parse2 cs with
  | some (hh, ':' :: r1) =>
    match parse2 r1 with
    | some (mi, r2) =>
      match r2 with
      | ':' :: r3 =>
        match parse2 r3 with
        | some (ss, r4) =>
          if hh ≤ 23 && mi ≤ 59 && ss ≤ 59 then some (hh, mi, ss, r4) else none
        | none => none
      | _ => if hh ≤ 23 && mi ≤ 59 then some (hh, mi, 0, r2) else none
    | _ => none
  | _ => none

/-- Model of `datetime.fromisoformat` on the grammar this system feeds it:
"YYYY-MM-DD", optionally followed by a 'T' or ' ' separator, "HH:MM[:SS]",
and an optional "±HH:MM" zone offset. Returns the wall-clock Unix seconds
and the offset; `none` models the `ValueError` path. -/
def isoParse (s : String) : Option (Int × Option Int) :=
  match parse4 s.data with
  | some (y, '-' :: r1) =>
    match parse2 r1 with
    | some (mo, '-' :: r2) =>
      match parse2 r2 with
      | some (d, r3) =>
        if 1 ≤ y && 1 ≤ mo && mo ≤ 12 && 1 ≤ d && d ≤ daysInMonth (y : Int) mo then
          match r3 with
          | [] => some (daysFromCivil (y : Int) mo d * 86400, none)
          | sep :: r4 =>
            if sep = 'T' || sep = ' ' then
              match parseTime r4 with
              | some (hh, mi, ss, r5) =>
                let naive := daysFromCivil (y : Int) mo d * 86400
                  + (hh : Int) * 3600 + (mi : Int) * 60 + (ss : Int)
                match r5 with
                | [] => some (naive, none)
                | _ =>
                  match parseOffset r5 with
                  | some (off, []) => some (naive, some off)
                  | _ => none
              | none => none
            else none
        else none
      | _ => none
    | _ => none
  | _ => none

/-- The `s.replace("Z", "+00:00")` step (a single-character pattern). -/
def zReplace (s : String) : String :=
  ⟨s.data.flatMap (fun c => if c = 'Z' then "+00:00".data else [c])⟩

/-- The inner try of the string branch of `_format_modified`: map Z to an
offset, parse ISO-8601, collapse an aware datetime to local wall time
(local timezone modelled as UTC), render to minute precision; `none` models
the except path that returns the stripped input unchanged. -/
def isoTryRender (s : String) : Option String :=
  match isoParse (zReplace s) with
  | none => none
  | some (naive, none) => some (renderYmdHm naive)
  | some (naive, some off) =>
    let utc := naive - off
    if minDatetimeSec ≤ utc && utc ≤ maxDatetimeSec then some (renderYmdHm utc)
    else none

/-- The numeric branch of `_format_modified`: epochs above 10^10 are taken
to be milliseconds and divided by 1000; a timestamp `fromtimestamp` rejects
makes the whole call return the empty string. -/
def formatEpochRendered (q : ℚ) : String :=
  let ts := if 10000000000 < q then q / 1000 else q
  if fromtimestampValid ts then renderYmdHm (Rat.floor ts) else ""

/-- Model of `_format_modified`: `None` yields "", numbers (including
bools, which Python treats as ints) go through the epoch branch, digit-only
strings are parsed as the integer case, other strings go through the ISO
branch and are returned stripped-but-unchanged when unparseable. -/
def formatModified : PyVal → String
  | .vnone => ""
  | .vint n => formatEpochRendered (n : ℚ)
  | .vrat q => formatEpochRendered q
  | .vbool b => formatEpochRendered (if b then 1 else 0)
  | .vstr v =>
    let s := pyStrip v
    if pyIsDigit s then formatEpochRendered ((digitsToNat s : Int) : ℚ)
    else
      match isoTryRender s with
      | some r => r
      | none => s

/- ### Theorems for C9 -/

/-- C9 counterexample: the unparseable string "hello" is returned
unchanged, not mapped to the empty "no value" result. -/
theorem formatModified_unparseable_not_empty :
    formatModified (PyVal.vstr "hello") = "hello" ∧ "hello" ≠ "" := by
  decide

/-- C9 amended: `_format_modified` accepts `None` (yielding ""), numeric
epochs (with the milliseconds heuristic above 10^10), digit-only strings
(dispatched to the integer case), and ISO-8601 strings with a trailing Z
(rendered after collapsing the zone); but an unparseable non-digit string
is returned stripped-but-otherwise-unchanged rather than empty, and only
unparseable non-string input (or an out-of-range epoch) yields "". The
function never raises. -/
theorem formatModified_amended (v d : String) (n : Int)
    (hv1 : pyIsDigit (pyStrip v) = false)
    (hv2 : isoTryRender (pyStrip v) = none)
    (hd : pyIsDigit (pyStrip d) = true)
    (hn : (10000000000 : Int) < n) :
    formatModified PyVal.vnone = ""
    ∧ formatModified (PyVal.vstr "2025-01-02T10:00:05Z") = "2025-01-02 10:00"
    ∧ formatModified (PyVal.vstr d) = formatModified (PyVal.vint (digitsToNat (pyStrip d)))
    ∧ formatModified (PyVal.vstr v) = pyStrip v
    ∧ formatModified (PyVal.vint n)
        = (if fromtimestampValid ((n : ℚ) / 1000) = true
           then renderYmdHm (Rat.floor ((n : ℚ) / 1000)) else "") := by
  refine ⟨rfl, by decide, ?_, ?_, ?_⟩
  · simp [formatModified, hd]
  · simp [formatModified, hv1, hv2]
  · have hq : (10000000000 : ℚ) < (n : ℚ) := by exact_mod_cast hn
    simp [formatModified, formatEpochRendered, hq]

/-- Witness for the amended C9 theorem at concrete inputs. -/
theorem formatModified_amended_witness :
    formatModified PyVal.vnone = ""
    ∧ formatModified (PyVal.vstr "2025-01-02T10:00:05Z") = "2025-01-02 10:00"
    ∧ formatModified (PyVal.vstr "1735689600")
        = formatModified (PyVal.vint (digitsToNat (pyStrip "1735689600")))
    ∧ formatModified (PyVal.vstr "not-a-date") = pyStrip "not-a-date"
    ∧ formatModified (PyVal.vint 1735689600000)
        = (if fromtimestampValid ((1735689600000 : ℚ) / 1000) = true
           then renderYmdHm (Rat.floor ((1735689600000 : ℚ) / 1000)) else "") :=
  formatModified_amended "not-a-date" "1735689600" 1735689600000
    (by decide) (by decide) (by decide) (by decide)

/- ### Theorems for C1 -/

/-- C1: with a descriptor passing the pre-flight checks and no load in
flight, `load_files_async` returns `true` and starts exactly one background
connect+list; a second call while that load is outstanding returns `true`
immediately and changes nothing — the state (and with it the in-flight
operation and the network-start count) is untouched. -/
theorem loadFilesAsync_single_flight (st : ExplorerState)
    (hc : credentialsOk st.session = true) (hidle : st.loading = false) :
    (loadFilesAsync st).1 = true
    ∧ (loadFilesAsync st).2.networkStarts = st.networkStarts + 1
    ∧ loadFilesAsync (loadFilesAsync st).2 = (true, (loadFilesAsync st).2) := by
  unfold credentialsOk at hc
  rw [Bool.and_eq_true, Bool.not_eq_true', Bool.not_eq_true'] at hc
  obtain ⟨h1, h2⟩ := hc
  simp only [Bool.or_eq_false_iff, decide_eq_false_iff_not] at h1
  simp only [Bool.and_eq_false_iff, Bool.or_eq_false_iff, decide_eq_false_iff_not] at h2
  obtain ⟨hu, hp⟩ := h1
  rcases h2 with hC | ⟨hD, hE⟩
  · simp [loadFilesAsync, hidle, hu, hp, hC]
  · simp [loadFilesAsync, hidle, hu, hp, hD, hE]

/-- The concrete state for the C1 witness: valid cloud credentials, idle. -/
def c1IdleState : ExplorerState :=
  { session := { storage := "cloud", username := "u", password := "p",
                 server := "", share := "" },
    loading := false, everLoadedOk := false, tree := [],
    status := "Loading…", networkStarts := 0 }

/-- Witness for the C1 theorem at a concrete idle state. -/
theorem loadFilesAsync_single_flight_witness :
    (loadFilesAsync c1IdleState).1 = true
    ∧ (loadFilesAsync c1IdleState).2.networkStarts = c1IdleState.networkStarts + 1
    ∧ loadFilesAsync (loadFilesAsync c1IdleState).2 = (true, (loadFilesAsync c1IdleState).2) :=
  loadFilesAsync_single_flight c1IdleState (by decide) rfl

/- ### Theorems for C2 -/

/-- The navigation state seeded by the first successful load at root. -/
def navRootSeed : NavState :=
  { history := [""], idx := 0, current := "" }

/-- C2: from the root seed, successful pushes of "a" then "a/b" yield
history ["", "a", "a/b"] with cursor 2; a successful back yields cursor 1
at path "a" with the history untouched; a subsequent successful push of "c"
truncates the forward history and yields ["", "a", "c"] with cursor 2. -/
theorem navigation_push_back_push :
    (navPush navRootSeed "a").history = ["", "a"]
    ∧ (navPush navRootSeed "a").idx = 1
    ∧ (navPush (navPush navRootSeed "a") "a/b").history = ["", "a", "a/b"]
    ∧ (navPush (navPush navRootSeed "a") "a/b").idx = 2
    ∧ (navBack (navPush (navPush navRootSeed "a") "a/b")).idx = 1
    ∧ (navBack (navPush (navPush navRootSeed "a") "a/b")).current = "a"
    ∧ (navBack (navPush (navPush navRootSeed "a") "a/b")).history
        = (navPush (navPush navRootSeed "a") "a/b").history
    ∧ (navPush (navBack (navPush (navPush navRootSeed "a") "a/b")) "c").history
        = ["", "a", "c"]
    ∧ (navPush (navBack (navPush (navPush navRootSeed "a") "a/b")) "c").idx = 2 := by
  decide

/- ### Theorems for C3 -/

/-- An explorer that has already displayed a successful listing. -/
def c3LoadedState : ExplorerState :=
  { session := { storage := "cloud", username := "u", password := "p",
                 server := "", share := "" },
    loading := true, everLoadedOk := true, tree := ["file1.txt"],
    status := "1 item", networkStarts := 1 }

/-- C3 counterexample: a failed load arriving after a successful one (the
explorer has `everLoadedOk` and a non-empty displayed listing) still clears
the listing — `_handle_load_error` clears unconditionally, so a failed
subsequent load does not leave the current view intact. -/
theorem loadError_clears_despite_prior_success :
    c3LoadedState.everLoadedOk = true
    ∧ c3LoadedState.tree ≠ []
    ∧ (onLoadError c3LoadedState "connection reset").tree = [] := by
  decide

/-- C3 amended: every failed load — first or subsequent — clears the
displayed listing and reports "Failed to load files"; it is only the
pre-network "Not connected" short-circuit that preserves the displayed
content once some load has succeeded. -/
theorem loadError_always_clears (st st2 : ExplorerState) (msg : String)
    (hbad : credentialsOk st2.session = false) (hok : st2.everLoadedOk = true) :
    (onLoadError st msg).tree = []
    ∧ (onLoadError st msg).status = "Failed to load files"
    ∧ loadFilesAsync st2 = (false, st2) := by
  refine ⟨rfl, rfl, ?_⟩
  unfold credentialsOk at hbad
  rw [Bool.and_eq_false_iff, Bool.not_eq_false', Bool.not_eq_false'] at hbad
  have hsc : notConnectedShortCircuit st2 = st2 := by
    unfold notConnectedShortCircuit
    rw [if_pos hok]
  rcases hbad with hb | hb
  · simp only [loadFilesAsync, hb, if_true, hsc]
  · by_cases ha : (pyStrip st2.session.username = "" || pyStrip st2.session.password = "") = true
    · simp only [loadFilesAsync, ha, if_true, hsc]
    · rw [Bool.not_eq_true] at ha
      simp only [loadFilesAsync, ha, hb, hsc]
      simp

/-- A failing subsequent load for the C3 witness. -/
def c3FailState : ExplorerState :=
  { session := { storage := "cloud", username := "u", password := "p",
                 server := "", share := "" },
    loading := true, everLoadedOk := true, tree := ["a.txt", "b.txt"],
    status := "2 items", networkStarts := 2 }

/-- A loaded explorer whose descriptor lost its credentials, for the C3
witness. -/
def c3NoCredsState : ExplorerState :=
  { session := { storage := "", username := "", password := "",
                 server := "", share := "" },
    loading := false, everLoadedOk := true, tree := ["kept.txt"],
    status := "1 item", networkStarts := 1 }

/-- Witness for the amended C3 theorem at concrete states. -/
theorem loadError_always_clears_witness :
    (onLoadError c3FailState "boom").tree = []
    ∧ (onLoadError c3FailState "boom").status = "Failed to load files"
    ∧ loadFilesAsync c3NoCredsState = (false, c3NoCredsState) :=
  loadError_always_clears c3FailState c3NoCredsState "boom" (by decide) rfl

/- ### Theorems for C8 -/

/-- The C8 metadata oracle: `info("file.txt")` reports a size of "123",
`info("folder/")` raises. -/
def c8Info : String → Option (List (String × PyVal)) := fun p =>
  if p = "file.txt" then some [("size", PyVal.vstr "123")] else none

/-- In the base pass every entry starts with size unset. -/
theorem davBase_size_none (rd : String) (ws : List String) :
    ∀ e ∈ davClientListBase rd ws, e.size = none := by
  intro e he
  unfold davClientListBase at he
  simp only [List.mem_filterMap] at he
  obtain ⟨name, _, hsome⟩ := he
  split at hsome
  · exact absurd hsome (by simp)
  · cases hsome
    rfl

/-- C8: listing ["file.txt", "folder/"] when the metadata fetch for
"folder/" raises still yields both entries in listing order, with the
directory's size left unpopulated and the failure swallowed; moreover, for
every listing and every metadata oracle, the produced names, paths, order
and directory flags equal those of the base pass (a worker failure can
never drop or reorder entries), and size is populated only for
non-directories. -/
theorem davClientList_failure_not_propagated :
    davClientList "" ["file.txt", "folder/"] true c8Info
      = [{ name := "file.txt", remotePath := "file.txt", isDir := false,
           size := some 123, modified := none },
         { name := "folder", remotePath := "folder/", isDir := true,
           size := none, modified := none }]
    ∧ (∀ (rd : String) (ws : List String) (incl : Bool)
        (info : String → Option (List (String × PyVal))),
        (davClientList rd ws incl info).map (fun e => (e.name, e.remotePath, e.isDir))
          = (davClientListBase rd ws).map (fun e => (e.name, e.remotePath, e.isDir)))
    ∧ (∀ (rd : String) (ws : List String) (incl : Bool)
        (info : String → Option (List (String × PyVal))),
        (davClientList rd ws incl info).all (fun e => !e.isDir || e.size.isNone) = true) := by
  refine ⟨by decide, ?_, ?_⟩
  · intro rd ws incl info
    rw [davClientList, List.map_map]
    apply List.map_congr_left
    intro e _
    show (fun e => (e.name, e.remotePath, e.isDir)) (enrichEntry incl info e) = _
    unfold enrichEntry
    split
    · cases info e.remotePath with
      | none => rfl
      | some d => rfl
    · rfl
  · intro rd ws incl info
    rw [davClientList, List.all_eq_true]
    intro x hx
    simp only [List.mem_map] at hx
    obtain ⟨b, hb, rfl⟩ := hx
    have hs := davBase_size_none rd ws b hb
    unfold enrichEntry
    split
    · cases hinfo : info b.remotePath with
      | none => simp [hs]
      | some d =>
        by_cases hd : b.isDir
        · simp [hd, hs]
        · simp [hd]
    · simp [hs]

/- ### Theorems for C7 -/

/-- The C7 server: chunked reads yield "Hello " at offset 0, "World" at
offset 6, and past the end an explicit STATUS_END_OF_FILE error. -/
def c7EofServer (eofMsg : String) : Nat → ReadResult := fun off =>
  if off = 0 then .data "Hello "
  else if off = 6 then .data "World"
  else .exc eofMsg

/-- A server that fails with an unrelated status after the first chunk. -/
def c7FailingServer : Nat → ReadResult := fun off =>
  if off = 0 then .data "Hello "
  else .exc "STATUS_ACCESS_DENIED"

/-- C7: a download whose reads yield "Hello ", "World", then an error
carrying the end-of-file status reconstructs exactly "Hello World" — for
both spellings of the status the code recognises — while an unrelated read
error aborts the transfer, surfaces that error, and leaves the partial
artifact. -/
theorem downloadFile_eof_status_is_eof :
    downloadFile (c7EofServer "STATUS_END_OF_FILE: 0xC0000011") 10
      = some (.complete "Hello World")
    ∧ downloadFile (c7EofServer "Unexpected status code (3221225489) 0xC0000011") 10
      = some (.complete "Hello World")
    ∧ downloadFile c7FailingServer 10
      = some (.failed "STATUS_ACCESS_DENIED" "Hello ") := by
  decide

/- ### Theorems for C10 -/

/-- Every `digitChar` value is a decimal digit character. -/
theorem digitChar_isDigit : ∀ n : Nat, isDigitCh (digitChar n) = true
  | 0 | 1 | 2 | 3 | 4 | 5 | 6 | 7 | 8 | 9 => rfl
  | _ + 10 => rfl

/-- The decimal printer only ever emits digit characters (beyond what the
accumulator already held). -/
theorem natToDecAux_digits (fuel : Nat) : ∀ (n : Nat) (acc : List Char),
    (∀ c ∈ acc, isDigitCh c = true) →
    ∀ c ∈ natToDecAux fuel n acc, isDigitCh c = true := by
  induction fuel with
  | zero => intro n acc hacc c hc; exact hacc c hc
  | succ fuel ih =>
    intro n acc hacc c hc
    unfold natToDecAux at hc
    split at hc
    · rcases List.mem_cons.mp hc with h | h
      · subst h; exact digitChar_isDigit n
      · exact hacc c h
    · refine ih (n / 10) _ ?_ c hc
      intro x hx
      rcases List.mem_cons.mp hx with h | h
      · subst h; exact digitChar_isDigit _
      · exact hacc x h

/-- The decimal printer never returns an empty list when its accumulator is
non-empty. -/
theorem natToDecAux_ne_nil (fuel : Nat) : ∀ (n : Nat) (acc : List Char),
    acc ≠ [] → natToDecAux fuel n acc ≠ [] := by
  induction fuel with
  | zero => intro n acc h; exact h
  | succ fuel ih =>
    intro n acc h
    unfold natToDecAux
    split
    · simp
    · exact ih (n / 10) _ (by simp)

/-- `natToDec` produces only digit characters. -/
theorem natToDec_digits (n : Nat) : ∀ c ∈ (natToDec n).data, isDigitCh c = true :=
  natToDecAux_digits (n + 1) n [] (by simp)

/-- `natToDec` is never empty. -/
theorem natToDec_ne_nil (n : Nat) : (natToDec n).data ≠ [] := by
  show natToDecAux (n + 1) n [] ≠ []
  unfold natToDecAux
  split
  · simp
  · exact natToDecAux_ne_nil n (n / 10) [digitChar (n % 10)] (by simp)

/-- `str()` of a non-negative integer is its decimal digit string. -/
theorem intToDec_nonneg (n : Int) (h : 0 ≤ n) : intToDec n = natToDec n.toNat := by
  unfold intToDec
  rw [if_neg (not_lt.mpr h)]

/-- The boundary dictionary holds a string under `key`. -/
def rowStrField (row : List (String × PyVal)) (key : String) : Prop :=
  ∃ s, row.lookup key = some (PyVal.vstr s)

/-- The boundary dictionary's "size" is a non-empty decimal digit string. -/
def rowSizeDigits (row : List (String × PyVal)) : Prop :=
  ∃ s, row.lookup "size" = some (PyVal.vstr s)
    ∧ s.data ≠ [] ∧ s.data.all isDigitCh = true

/-- The boundary dictionary's "is_dir" is exactly "true" or "false". -/
def rowIsDirFlag (row : List (String × PyVal)) : Prop :=
  row.lookup "is_dir" = some (PyVal.vstr "true")
    ∨ row.lookup "is_dir" = some (PyVal.vstr "false")

/-- The boundary dictionary's "modified" is a formatted date string or
empty. -/
def rowModifiedFormatted (row : List (String × PyVal)) : Prop :=
  ∃ m, row.lookup "modified" = some (PyVal.vstr m)
    ∧ (m = "" ∨ ∃ ts : Int, m = renderYmdHms ts)

/-- C10: every entry produced at the storage-backend boundary is a
dictionary whose "name", "path", "size" and "is_dir" values are strings,
with "is_dir" exactly "true"/"false" and "size" a decimal digit string
(sizes at this boundary being the backends' non-negative byte counts), and
every share-backend entry additionally carries a "modified" key holding a
formatted date string or the empty string. -/
theorem storageBoundary_stringly_typed (raws : List SmbRawEntry)
    (davEntries : List DavListEntry)
    (hsz : davEntries.all (fun e => 0 ≤ e.size.getD 0) = true) :
    (∀ row ∈ listFilesInDirectory raws,
      rowStrField row "name" ∧ rowStrField row "path" ∧ rowSizeDigits row
        ∧ rowIsDirFlag row ∧ rowModifiedFormatted row)
    ∧ (∀ row ∈ davBackendListFiles davEntries,
      rowStrField row "name" ∧ rowStrField row "path" ∧ rowSizeDigits row
        ∧ rowIsDirFlag row) := by
  constructor
  · intro row hrow
    simp only [listFilesInDirectory, List.mem_filterMap] at hrow
    obtain ⟨e, _, hr⟩ := hrow
    rcases hfn : e.fileName with _ | name
    · simp [smbEntryRow, hfn] at hr
    · by_cases hflt : smbNameFiltered name = true
      · simp [smbEntryRow, hfn, hflt] at hr
      · simp only [smbEntryRow, hfn, hflt, if_false, Bool.false_eq_true,
          Option.some.injEq] at hr
        subst hr
        refine ⟨⟨name, rfl⟩, ⟨name, rfl⟩,
          ⟨natToDec (smbSizeVal e), rfl, natToDec_ne_nil _,
            List.all_eq_true.mpr (natToDec_digits _)⟩, ?_, ?_⟩
        · by_cases hd : smbIsDir e = true
          · left; simp [List.lookup, hd]
          · right; simp only [Bool.not_eq_true] at hd; simp [List.lookup, hd]
        · rcases hm : smbModString (smbModifiedVal e) with _ | r
          · exact ⟨"", by simp [List.lookup, hm], Or.inl rfl⟩
          · refine ⟨r, by simp [List.lookup, hm], Or.inr ?_⟩
            unfold smbModString at hm
            rcases hmv : smbModifiedVal e with _ | val
            · rw [hmv] at hm
              exact Option.noConfusion hm
            · rw [hmv] at hm
              by_cases hv : fromtimestampValid (decodeShareTimestamp val) = true
              · simp only [hv, if_true] at hm
                exact ⟨_, ((Option.some.injEq _ _).mp hm).symm⟩
              · simp [hv] at hm
  · intro row hrow
    simp only [davBackendListFiles, List.mem_map] at hrow
    obtain ⟨e, he, hr⟩ := hrow
    have hnn : 0 ≤ e.size.getD 0 := by
      have h := List.all_eq_true.mp hsz e he
      exact of_decide_eq_true h
    have hsd : rowSizeDigits (davRowBase e) := by
      refine ⟨intToDec (e.size.getD 0), rfl, ?_, ?_⟩
      · rw [intToDec_nonneg _ hnn]; exact natToDec_ne_nil _
      · rw [intToDec_nonneg _ hnn]
        exact List.all_eq_true.mpr (natToDec_digits _)
    have hdd : rowIsDirFlag (davRowBase e) := by
      by_cases hd : e.isDir = true
      · left; simp [davRowBase, List.lookup, hd]
      · right; simp only [Bool.not_eq_true] at hd; simp [davRowBase, List.lookup, hd]
    have hbase : rowStrField (davRowBase e) "name" ∧ rowStrField (davRowBase e) "path"
        ∧ rowSizeDigits (davRowBase e) ∧ rowIsDirFlag (davRowBase e) :=
      ⟨⟨e.name, rfl⟩, ⟨e.name, rfl⟩, hsd, hdd⟩
    have hext : ∀ tail : List (String × PyVal),
        rowStrField (davRowBase e ++ tail) "name"
        ∧ rowStrField (davRowBase e ++ tail) "path"
        ∧ rowSizeDigits (davRowBase e ++ tail)
        ∧ rowIsDirFlag (davRowBase e ++ tail) := by
      intro tail
      obtain ⟨⟨s1, h1⟩, ⟨s2, h2⟩, ⟨s3, h3, h3a, h3b⟩, h4⟩ := hbase
      refine ⟨⟨s1, ?_⟩, ⟨s2, ?_⟩, ⟨s3, ?_, h3a, h3b⟩, ?_⟩
      · simpa [davRowBase, List.lookup] using h1
      · simpa [davRowBase, List.lookup] using h2
      · simpa [davRowBase, List.lookup] using h3
      · rcases h4 with h4 | h4
        · left; simpa [davRowBase, List.lookup] using h4
        · right; simpa [davRowBase, List.lookup] using h4
    subst hr
    rcases hm2 : e.modified with _ | pv
    · simp only [hm2]
      exact hbase
    · rcases pv with _ | s | k | q | b <;> simp only [hm2] <;> exact hext _

/-- Concrete share records for the C10 witness. -/
def c10SmbRecords : List SmbRawEntry :=
  [smbFileRecord "a.txt" 1024, smbDirRecord "docs"]

/-- Concrete cloud client entries for the C10 witness. -/
def c10DavEntries : List DavListEntry :=
  [{ name := "file.txt", remotePath := "file.txt", isDir := false,
     size := some 123, modified := some (PyVal.vstr "2025-01-01T00:00:00Z") },
   { name := "folder", remotePath := "folder/", isDir := true,
     size := none, modified := none }]

/-- Witness for the C10 theorem at concrete listings. -/
theorem storageBoundary_stringly_typed_witness :
    (∀ row ∈ listFilesInDirectory c10SmbRecords,
      rowStrField row "name" ∧ rowStrField row "path" ∧ rowSizeDigits row
        ∧ rowIsDirFlag row ∧ rowModifiedFormatted row)
    ∧ (∀ row ∈ davBackendListFiles c10DavEntries,
      rowStrField row "name" ∧ rowStrField row "path" ∧ rowSizeDigits row
        ∧ rowIsDirFlag row) :=
  storageBoundary_stringly_typed c10SmbRecords c10DavEntries (by decide)

end SigVault
